import Mathlib

/-!
Verification of the lxmon host monitoring agent (`src/lxmon-agent/main.go`,
the full version of the agent: the one with bounded retries, graceful
shutdown, and per-command timeouts).

Shallow embedding conventions:
* Go `float64` values carried by metrics and durations are modelled as `Rat`;
  no claim under verification depends on floating-point rounding, only on
  which values are passed through unchanged.
* Durations (`time.Duration`, built from whole seconds in `loadConfig`) are
  modelled as their second counts.
* Fallible host queries (gopsutil), HTTP transport calls and command
  execution are modelled by oracles: functions supplied as parameters that
  decide the outcome of each external interaction.  The agent code itself is
  translated faithfully; the oracles only stand for the outside world.
* The Go `int` field `MaxRetries` is modelled as `Nat`; a negative
  `MaxRetries` makes the Go retry loop `for attempt := 1; attempt <=
  config.MaxRetries` execute zero times, exactly as the value `0` does, so
  clamping at `0` preserves the loop behaviour for every input.
-/

namespace Lxmon

/-- Configuration record (`type Config`, main.go lines 420-430): server URL,
API key, sampling interval, hostname, per-command timeout, retry policy,
log level and debug flag. -/
structure Config where
  serverURL : String
  apiKey : String
  interval : Int
  hostname : String
  maxTimeout : Int
  maxRetries : Nat
  retryDelay : Int
  logLevel : String
  enableDebug : Bool
deriving DecidableEq, Repr

/-- One metric sample (`type Metric`): category, name, value, unit, metadata
and capture timestamp.  The Go `map[string]interface{}` metadata holds only
string values in this program (mountpoint, filesystem, device), modelled as
an association list. -/
structure Metric where
  metricType : String
  metricName : String
  value : Rat
  unit : String
  metadata : List (String × String)
  timestamp : Nat
deriving DecidableEq, Repr

/-- Metrics submission payload (`type MetricsPayload`). -/
structure MetricsPayload where
  hostname : String
  metrics : List Metric
  apiKey : String
deriving DecidableEq, Repr

/-- Command result (`type CommandResult`): command id, exit code, captured
output streams, wall-clock duration in seconds, completion timestamp. -/
structure CommandResult where
  commandID : Int
  exitCode : Int
  stdout : String
  stderr : String
  duration : Rat
  timestamp : Nat
deriving DecidableEq, Repr

/-- Pending command fetched from the collector (`type PendingCommand`). -/
structure PendingCommand where
  id : Int
  command : String
deriving DecidableEq, Repr

/-! ## Configuration loading

`loadConfig` (main.go lines 479-524): defaults, environment overrides, and
hostname resolution.  `os.Getenv` returns the empty string for unset
variables; `os.Hostname` may fail, which is fatal (`log.Fatalf`), modelled
as `none`. -/

/-- Process environment: variable lookup (empty string when unset, as in Go)
and the result of `os.Hostname`. -/
structure Env where
  vars : String → String
  hostname : Option String

/-- `loadConfig`: defaults, then environment overrides, then hostname
resolution (fatal on failure, hence `Option`).  `strconv.Atoi` is modelled
by `String.toInt?`. -/
def loadConfig (e : Env) : Option Config :=
  let c0 : Config :=
    { serverURL := "http://localhost:8000"
      apiKey := "agent-key-1"
      interval := 60
      hostname := ""
      maxTimeout := 300
      maxRetries := 3
      retryDelay := 5
      logLevel := "info"
      enableDebug := false }
  let c1 := if e.vars "LXMON_SERVER_URL" ≠ "" then
    { c0 with serverURL := e.vars "LXMON_SERVER_URL" } else c0
  let c2 := if e.vars "LXMON_API_KEY" ≠ "" then
    { c1 with apiKey := e.vars "LXMON_API_KEY" } else c1
  let c3 := if e.vars "LXMON_INTERVAL" ≠ "" then
    match (e.vars "LXMON_INTERVAL").toInt? with
    | some n => { c2 with interval := n }
    | none => c2
    else c2
  let c4 := if e.vars "LXMON_MAX_TIMEOUT" ≠ "" then
    match (e.vars "LXMON_MAX_TIMEOUT").toInt? with
    | some n => { c3 with maxTimeout := n }
    | none => c3
    else c3
  let c5 := if e.vars "LXMON_MAX_RETRIES" ≠ "" then
    match (e.vars "LXMON_MAX_RETRIES").toInt? with
    | some n => { c4 with maxRetries := n.toNat }
    | none => c4
    else c4
  let c6 := if e.vars "LXMON_DEBUG" = "true" then
    { c5 with enableDebug := true } else c5
  match e.hostname with
  | none => none
  | some h => some { c6 with hostname := h }

/-! ## Resilient transport: the bounded retry loop

`registerAgentWithRetry` (lines 570-584), `sendMetricsWithRetry` (lines
845-861) and `sendCommandResultWithRetry` (lines 975-991) are three copies
of the same loop:

    for attempt := 1; attempt <= config.MaxRetries; attempt++ {
        if err := send(); err != nil {
            lastErr = err
            if attempt < config.MaxRetries { time.Sleep(config.RetryDelay) }
        } else { return nil }
    }
    return lastErr

`retryLoop` embeds that loop once; the per-attempt outcome of the wrapped
HTTP call is an oracle `Nat → Bool` (`true` = 2xx success).  The trace
records every attempt made and every sleep performed; the `Bool` result is
`true` for success and `false` for exhausted-failure (`lastErr` non-nil). -/

/-- Observable transport events: one HTTP attempt (numbered from 1), or one
`time.Sleep` of the given duration in seconds. -/
inductive TransportEvent where
  | attempt (n : Nat)
  | sleep (d : Int)
deriving DecidableEq, Repr

/-- The shared retry loop, starting at attempt number `attempt`. -/
def retryLoop (maxR : Nat) (d : Int) (oracle : Nat → Bool) (attempt : Nat) :
    List TransportEvent × Bool :=
  if h : attempt ≤ maxR then
    if oracle attempt then
      ([.attempt attempt], true)
    else if h2 : attempt < maxR then
      let rest := retryLoop maxR d oracle (attempt + 1)
      (.attempt attempt :: .sleep d :: rest.1, rest.2)
    else
      ([.attempt attempt], false)
  else
    ([], true)
termination_by maxR + 1 - attempt
decreasing_by omega

/-- `registerAgentWithRetry` (lines 570-584): the retry loop around
`registerAgent`. -/
def registerAgentWithRetry (cfg : Config) (oracle : Nat → Bool) :
    List TransportEvent × Bool :=
  retryLoop cfg.maxRetries cfg.retryDelay oracle 1

/-- `sendMetricsWithRetry` (lines 845-861): the retry loop around
`sendMetrics`. -/
def sendMetricsWithRetry (cfg : Config) (oracle : Nat → Bool) :
    List TransportEvent × Bool :=
  retryLoop cfg.maxRetries cfg.retryDelay oracle 1

/-- `sendCommandResultWithRetry` (lines 975-991): the retry loop around
`sendCommandResult`. -/
def sendCommandResultWithRetry (cfg : Config) (oracle : Nat → Bool) :
    List TransportEvent × Bool :=
  retryLoop cfg.maxRetries cfg.retryDelay oracle 1

/-- Is a transport event an HTTP attempt? -/
def isAttempt : TransportEvent → Bool
  | .attempt _ => true
  | .sleep _ => false

/-- Number of HTTP attempts recorded in a transport trace. -/
def countAttempts (l : List TransportEvent) : Nat :=
  (l.filter isAttempt).length

theorem intersperse_cons_cons {α : Type} (sep x y : α) (t : List α) :
    List.intersperse sep (x :: y :: t) = x :: sep :: List.intersperse sep (y :: t) :=
  rfl

theorem retryLoop_perm (maxR : Nat) (d : Int) :
    ∀ k a, 1 ≤ a → a + k = maxR →
      retryLoop maxR d (fun _ => false) a
        = (List.intersperse (.sleep d) ((List.range' a (k + 1)).map TransportEvent.attempt),
           false) := by
  intro k
  induction k with
  | zero =>
    intro a h1 h2
    rw [retryLoop]
    have ha : a ≤ maxR := by omega
    have hlt : ¬ a < maxR := by omega
    simp [ha, hlt, List.range']
  | succ n ih =>
    intro a h1 h2
    have ha : a ≤ maxR := by omega
    have hlt : a < maxR := by omega
    rw [retryLoop]
    rw [ih (a + 1) (by omega) (by omega)]
    simp only [ha, hlt, dif_pos, dite_true, Bool.false_eq_true, if_false]
    simp [List.range', intersperse_cons_cons]

theorem retryLoop_exhausted (maxR : Nat) (d : Int) (o : Nat → Bool) :
    ∀ k a, 1 ≤ a → a + k = maxR → (retryLoop maxR d o a).2 = false →
      countAttempts (retryLoop maxR d o a).1 = k + 1 := by
  intro k
  induction k with
  | zero =>
    intro a h1 h2 hf
    rw [retryLoop] at hf ⊢
    have ha : a ≤ maxR := by omega
    have hlt : ¬ a < maxR := by omega
    rcases h : o a with _ | _ <;>
      simp [ha, hlt, h, countAttempts, isAttempt] at hf ⊢
  | succ n ih =>
    intro a h1 h2 hf
    rw [retryLoop] at hf ⊢
    have ha : a ≤ maxR := by omega
    have hlt : a < maxR := by omega
    rcases h : o a with _ | _
    · simp only [ha, dif_pos, h, Bool.false_eq_true, if_false, hlt, dite_true] at hf ⊢
      have := ih (a + 1) (by omega) (by omega) hf
      simp [countAttempts, isAttempt] at this ⊢
      omega
    · simp [ha, hlt, h] at hf

theorem retryLoop_false_iff (maxR : Nat) (d : Int) (o : Nat → Bool) :
    ∀ k a, 1 ≤ a → a + k = maxR →
      ((retryLoop maxR d o a).2 = false ↔ ∀ j, a ≤ j → j ≤ maxR → o j = false) := by
  intro k
  induction k with
  | zero =>
    intro a h1 h2
    rw [retryLoop]
    have ha : a ≤ maxR := by omega
    have hlt : ¬ a < maxR := by omega
    rcases h : o a with _ | _
    · simp [ha, hlt, h]
      intro j haj hja
      have : j = a := by omega
      simp [this, h]
    · simp [ha, hlt, h]
      refine ⟨a, by omega, by omega, by simp [h]⟩
  | succ n ih =>
    intro a h1 h2
    rw [retryLoop]
    have ha : a ≤ maxR := by omega
    have hlt : a < maxR := by omega
    rcases h : o a with _ | _
    · simp only [ha, dif_pos, h, Bool.false_eq_true, if_false, hlt, dite_true]
      rw [ih (a + 1) (by omega) (by omega)]
      constructor
      · intro hall j haj hja
        rcases Nat.eq_or_lt_of_le haj with rfl | hlt2
        · exact h
        · exact hall j (by omega) hja
      · intro hall j haj hja
        exact hall j (by omega) hja
    · simp [ha, hlt, h]
      refine ⟨a, by omega, by omega, by simp [h]⟩

theorem retryLoop_one_attempt (maxR : Nat) (d : Int) (o : Nat → Bool)
    (h : 1 ≤ maxR) : 1 ≤ countAttempts (retryLoop maxR d o 1).1 := by
  rw [retryLoop]
  rcases h2 : o 1 with _ | _
  · by_cases hlt : 1 < maxR
    · simp only [h, dif_pos, h2, Bool.false_eq_true, if_false, hlt, dite_true]
      simp [countAttempts, isAttempt]
    · simp only [h, dif_pos, h2, Bool.false_eq_true, if_false, hlt, dite_false]
      simp [countAttempts, isAttempt]
  · simp only [h, dif_pos, h2, if_true]
    simp [countAttempts, isAttempt]

/-! ## Metric collection

`collectAndSendMetrics` (main.go lines 618-843).  Each host query is an
independent fallible probe; a failing probe contributes nothing.  The host
side of the world is a `HostOracle`; `none` (or an empty slice where the Go
code demands a non-empty one) means the corresponding gopsutil call
returned an error.  Each sample's `time.Now()` capture timestamp is
abstracted to the single tick time `now`. -/

/-- Result of `mem.VirtualMemory()`. -/
structure VirtMemInfo where
  total : Nat
  used : Nat
  usedPercent : Rat
  available : Nat
deriving DecidableEq, Repr

/-- Result of `mem.SwapMemory()`. -/
structure SwapMemInfo where
  total : Nat
  used : Nat
  usedPercent : Rat
deriving DecidableEq, Repr

/-- One entry of `disk.Partitions(false)`. -/
structure Partition where
  device : String
  mountpoint : String
  fstype : String
deriving DecidableEq, Repr

/-- Result of `disk.Usage(mountpoint)`. -/
structure DiskUsageInfo where
  usedPercent : Rat
  total : Nat
  free : Nat
deriving DecidableEq, Repr

/-- One entry of `gopsutilnet.IOCounters(false)`. -/
structure NetIOStat where
  bytesSent : Nat
  bytesRecv : Nat
  packetsSent : Nat
  packetsRecv : Nat
deriving DecidableEq, Repr

/-- Result of `load.Avg()`. -/
structure LoadAvgInfo where
  load1 : Rat
  load5 : Rat
  load15 : Rat
deriving DecidableEq, Repr

/-- Outcomes of every host query issued by one collection pass.  `none`
models the query returning an error. -/
structure HostOracle where
  cpuPercent : Option (List Rat)
  cpuCount : Option Nat
  virtualMemory : Option VirtMemInfo
  swapMemory : Option SwapMemInfo
  partitions : Option (List Partition)
  diskUsage : String → Option DiskUsageInfo
  netIOCounters : Option (List NetIOStat)
  hostUptime : Option Nat
  loadAvg : Option LoadAvgInfo
  processPids : Option (List Nat)

/-- CPU utilization samples (lines 623-631): requires a successful,
non-empty `cpu.Percent` slice and uses its first element. -/
def cpuBlock (o : HostOracle) (now : Nat) : List Metric :=
  match o.cpuPercent with
  | some (v :: _) => [⟨"cpu", "usage_percent", v, "percent", [], now⟩]
  | _ => []

/-- Logical CPU count sample (lines 634-642). -/
def cpuCountBlock (o : HostOracle) (now : Nat) : List Metric :=
  match o.cpuCount with
  | some n => [⟨"cpu", "count", (n : Rat), "cores", [], now⟩]
  | none => []

/-- Virtual memory samples (lines 645-674). -/
def memBlock (o : HostOracle) (now : Nat) : List Metric :=
  match o.virtualMemory with
  | some mi =>
    [⟨"memory", "total", (mi.total : Rat), "bytes", [], now⟩,
     ⟨"memory", "used", (mi.used : Rat), "bytes", [], now⟩,
     ⟨"memory", "used_percent", mi.usedPercent, "percent", [], now⟩,
     ⟨"memory", "available", (mi.available : Rat), "bytes", [], now⟩]
  | none => []

/-- Swap memory samples (lines 677-699). -/
def swapBlock (o : HostOracle) (now : Nat) : List Metric :=
  match o.swapMemory with
  | some si =>
    [⟨"memory", "swap_total", (si.total : Rat), "bytes", [], now⟩,
     ⟨"memory", "swap_used", (si.used : Rat), "bytes", [], now⟩,
     ⟨"memory", "swap_used_percent", si.usedPercent, "percent", [], now⟩]
  | none => []

/-- Per-partition disk samples (lines 704-737): only partitions whose
`disk.Usage` call succeeds contribute. -/
def diskPartMetrics (o : HostOracle) (now : Nat) (p : Partition) : List Metric :=
  match o.diskUsage p.mountpoint with
  | some u =>
    [⟨"disk", "usage_percent", u.usedPercent, "percent",
      [("mountpoint", p.mountpoint), ("filesystem", p.fstype), ("device", p.device)], now⟩,
     ⟨"disk", "total", (u.total : Rat), "bytes", [("mountpoint", p.mountpoint)], now⟩,
     ⟨"disk", "free", (u.free : Rat), "bytes", [("mountpoint", p.mountpoint)], now⟩]
  | none => []

/-- The `for _, partition := range partitions` loop (lines 703-738). -/
def diskForParts (o : HostOracle) (now : Nat) : List Partition → List Metric
  | [] => []
  | p :: ps => diskPartMetrics o now p ++ diskForParts o now ps

/-- Disk samples (lines 702-739): nothing when `disk.Partitions` fails. -/
def diskBlock (o : HostOracle) (now : Nat) : List Metric :=
  match o.partitions with
  | some ps => diskForParts o now ps
  | none => []

/-- Network counter samples (lines 742-772): requires a successful,
non-empty `IOCounters` slice and uses its first element. -/
def netBlock (o : HostOracle) (now : Nat) : List Metric :=
  match o.netIOCounters with
  | some (st :: _) =>
    [⟨"network", "bytes_sent", (st.bytesSent : Rat), "bytes", [], now⟩,
     ⟨"network", "bytes_recv", (st.bytesRecv : Rat), "bytes", [], now⟩,
     ⟨"network", "packets_sent", (st.packetsSent : Rat), "packets", [], now⟩,
     ⟨"network", "packets_recv", (st.packetsRecv : Rat), "packets", [], now⟩]
  | _ => []

/-- Host uptime sample (lines 775-783). -/
def hostBlock (o : HostOracle) (now : Nat) : List Metric :=
  match o.hostUptime with
  | some u => [⟨"system", "uptime", (u : Rat), "seconds", [], now⟩]
  | none => []

/-- Load average samples (lines 786-808). -/
def loadBlock (o : HostOracle) (now : Nat) : List Metric :=
  match o.loadAvg with
  | some la =>
    [⟨"system", "load_average_1m", la.load1, "load", [], now⟩,
     ⟨"system", "load_average_5m", la.load5, "load", [], now⟩,
     ⟨"system", "load_average_15m", la.load15, "load", [], now⟩]
  | none => []

/-- Process count sample (lines 811-819). -/
def procBlock (o : HostOracle) (now : Nat) : List Metric :=
  match o.processPids with
  | some pids => [⟨"system", "process_count", (pids.length : Rat), "count", [], now⟩]
  | none => []

/-- The introspective collection-duration sample (lines 822-829), always
appended last. -/
def durationMetric (now : Nat) (dur : Rat) : Metric :=
  ⟨"agent", "collection_duration", dur, "seconds", [], now⟩

/-- All host-query samples in source order (lines 620-819). -/
def hostMetrics (o : HostOracle) (now : Nat) : List Metric :=
  cpuBlock o now ++ cpuCountBlock o now ++ memBlock o now ++ swapBlock o now ++
    diskBlock o now ++ netBlock o now ++ hostBlock o now ++ loadBlock o now ++
    procBlock o now

/-- The full batch built by one collection pass (lines 620-829): host
samples followed by the collection-duration sample.  `dur` abstracts the
measured wall-clock duration `time.Since(startTime).Seconds()`. -/
def collectMetrics (o : HostOracle) (now : Nat) (dur : Rat) : List Metric :=
  hostMetrics o now ++ [durationMetric now dur]

/-- Result of one `collectAndSendMetrics` pass: the payload handed to
`sendMetricsWithRetry`, the transport trace, and the send outcome. -/
structure CollectResult where
  payload : MetricsPayload
  transport : List TransportEvent
  sendOk : Bool

/-- `collectAndSendMetrics` (lines 618-843): build the batch, wrap it in
the payload, and submit via the retry loop — unconditionally, whatever
subset of host queries succeeded. -/
def collectAndSendMetrics (cfg : Config) (o : HostOracle) (now : Nat)
    (dur : Rat) (s : Nat → Bool) : CollectResult :=
  let metrics := collectMetrics o now dur
  let payload : MetricsPayload := ⟨cfg.hostname, metrics, cfg.apiKey⟩
  let r := sendMetricsWithRetry cfg s
  ⟨payload, r.1, r.2⟩

/-! ## Keys: which (category, name) pairs each source owns -/

/-- The (category, name) key of a sample. -/
def keyOf (m : Metric) : String × String :=
  (m.metricType, m.metricName)

/-- Restriction of a batch to the samples owning one of the given keys. -/
def keyFilter (ks : List (String × String)) (l : List Metric) : List Metric :=
  l.filter (fun m => decide (keyOf m ∈ ks))

def cpuK : List (String × String) := [("cpu", "usage_percent")]

def cpuCountK : List (String × String) := [("cpu", "count")]

def memK : List (String × String) :=
  [("memory", "total"), ("memory", "used"), ("memory", "used_percent"),
   ("memory", "available")]

def swapK : List (String × String) :=
  [("memory", "swap_total"), ("memory", "swap_used"),
   ("memory", "swap_used_percent")]

def diskK : List (String × String) :=
  [("disk", "usage_percent"), ("disk", "total"), ("disk", "free")]

def netK : List (String × String) :=
  [("network", "bytes_sent"), ("network", "bytes_recv"),
   ("network", "packets_sent"), ("network", "packets_recv")]

def hostK : List (String × String) := [("system", "uptime")]

def loadK : List (String × String) :=
  [("system", "load_average_1m"), ("system", "load_average_5m"),
   ("system", "load_average_15m")]

def procK : List (String × String) := [("system", "process_count")]

def agentK : List (String × String) := [("agent", "collection_duration")]

theorem keyFilter_append (ks : List (String × String)) (l1 l2 : List Metric) :
    keyFilter ks (l1 ++ l2) = keyFilter ks l1 ++ keyFilter ks l2 :=
  List.filter_append l1 l2

theorem keyFilter_self (ks : List (String × String)) (l : List Metric)
    (h : ∀ m ∈ l, keyOf m ∈ ks) : keyFilter ks l = l := by
  rw [keyFilter, List.filter_eq_self]
  intro m hm
  simpa using h m hm

theorem keyFilter_nil (ks K : List (String × String)) (l : List Metric)
    (hK : ∀ m ∈ l, keyOf m ∈ K) (hd : ∀ p ∈ K, p ∉ ks) : keyFilter ks l = [] := by
  rw [keyFilter, List.filter_eq_nil_iff]
  intro m hm
  simpa using hd _ (hK m hm)

theorem cpuBlock_keys (o : HostOracle) (now : Nat) :
    ∀ m ∈ cpuBlock o now, keyOf m ∈ cpuK := by
  intro m hm
  unfold cpuBlock at hm
  rcases h : o.cpuPercent with _ | l
  · simp [h] at hm
  · rcases l with _ | ⟨v, t⟩
    · simp [h] at hm
    · simp [h] at hm
      simp [hm, keyOf, cpuK]

theorem cpuCountBlock_keys (o : HostOracle) (now : Nat) :
    ∀ m ∈ cpuCountBlock o now, keyOf m ∈ cpuCountK := by
  intro m hm
  unfold cpuCountBlock at hm
  rcases h : o.cpuCount with _ | n <;> simp [h] at hm
  simp [hm, keyOf, cpuCountK]

theorem memBlock_keys (o : HostOracle) (now : Nat) :
    ∀ m ∈ memBlock o now, keyOf m ∈ memK := by
  intro m hm
  unfold memBlock at hm
  rcases h : o.virtualMemory with _ | mi <;> simp [h] at hm
  rcases hm with hm | hm | hm | hm <;> simp [hm, keyOf, memK]

theorem swapBlock_keys (o : HostOracle) (now : Nat) :
    ∀ m ∈ swapBlock o now, keyOf m ∈ swapK := by
  intro m hm
  unfold swapBlock at hm
  rcases h : o.swapMemory with _ | si <;> simp [h] at hm
  rcases hm with hm | hm | hm <;> simp [hm, keyOf, swapK]

theorem diskPartMetrics_keys (o : HostOracle) (now : Nat) (p : Partition) :
    ∀ m ∈ diskPartMetrics o now p, keyOf m ∈ diskK := by
  intro m hm
  unfold diskPartMetrics at hm
  rcases h : o.diskUsage p.mountpoint with _ | u <;> simp [h] at hm
  rcases hm with hm | hm | hm <;> simp [hm, keyOf, diskK]

theorem diskForParts_keys (o : HostOracle) (now : Nat) (ps : List Partition) :
    ∀ m ∈ diskForParts o now ps, keyOf m ∈ diskK := by
  induction ps with
  | nil => intro m hm; simp [diskForParts] at hm
  | cons p ps ih =>
    intro m hm
    simp only [diskForParts, List.mem_append] at hm
    rcases hm with hm | hm
    · exact diskPartMetrics_keys o now p m hm
    · exact ih m hm

theorem diskBlock_keys (o : HostOracle) (now : Nat) :
    ∀ m ∈ diskBlock o now, keyOf m ∈ diskK := by
  intro m hm
  unfold diskBlock at hm
  rcases h : o.partitions with _ | ps
  · simp [h] at hm
  · simp only [h] at hm
    exact diskForParts_keys o now ps m hm

theorem netBlock_keys (o : HostOracle) (now : Nat) :
    ∀ m ∈ netBlock o now, keyOf m ∈ netK := by
  intro m hm
  unfold netBlock at hm
  rcases h : o.netIOCounters with _ | l
  · simp [h] at hm
  · rcases l with _ | ⟨st, t⟩
    · simp [h] at hm
    · simp [h] at hm
      rcases hm with hm | hm | hm | hm <;> simp [hm, keyOf, netK]

theorem hostBlock_keys (o : HostOracle) (now : Nat) :
    ∀ m ∈ hostBlock o now, keyOf m ∈ hostK := by
  intro m hm
  unfold hostBlock at hm
  rcases h : o.hostUptime with _ | u <;> simp [h] at hm
  simp [hm, keyOf, hostK]

theorem loadBlock_keys (o : HostOracle) (now : Nat) :
    ∀ m ∈ loadBlock o now, keyOf m ∈ loadK := by
  intro m hm
  unfold loadBlock at hm
  rcases h : o.loadAvg with _ | la <;> simp [h] at hm
  rcases hm with hm | hm | hm <;> simp [hm, keyOf, loadK]

theorem procBlock_keys (o : HostOracle) (now : Nat) :
    ∀ m ∈ procBlock o now, keyOf m ∈ procK := by
  intro m hm
  unfold procBlock at hm
  rcases h : o.processPids with _ | pids <;> simp [h] at hm
  simp [hm, keyOf, procK]

theorem durationMetric_keys (now : Nat) (dur : Rat) :
    ∀ m ∈ [durationMetric now dur], keyOf m ∈ agentK := by
  intro m hm
  simp at hm
  simp [hm, durationMetric, keyOf, agentK]

/-! ## Command execution

`executeCommand` (main.go lines 933-973) runs the command text through
`bash -c` under `context.WithTimeout(config.MaxTimeout)` and reports a
`CommandResult` via `sendCommandResultWithRetry`.

The outcome of `execCmd.Run()` is modelled after the documented semantics
of Go's `os/exec`:
* the process started and exited by itself with code `c`: `Run` returns
  `nil` when `c = 0` and an `*exec.ExitError` with `ExitCode() = c`
  otherwise (`RunOutcome.exited c`);
* the process was terminated by a signal — which is what the
  `CommandContext` deadline does (it kills the process), and what an
  external kill does: `Run` returns an `*exec.ExitError` whose
  `ExitCode()` is `-1` (`RunOutcome.killed`);
* the shell could not be started at all: `Run` returns an error that is
  not an `*exec.ExitError` (`RunOutcome.startFailed`). -/

/-- Outcome of `execCmd.Run()` for one command. -/
inductive RunOutcome where
  | exited (code : Int)
  | killed
  | startFailed
deriving DecidableEq, Repr

/-- The exit-code computation of lines 949-956:

    exitCode := 0
    if err != nil {
        if exitErr, ok := err.(*exec.ExitError); ok {
            exitCode = exitErr.ExitCode()
        } else { exitCode = 1 }
    }
-/
def exitCodeOf : RunOutcome → Int
  | .exited c => c
  | .killed => -1
  | .startFailed => 1

/-- The outside world of one command execution: the run outcome, the
captured output streams (partial output when killed), the measured
wall-clock duration, the completion time, and the per-attempt outcome of
the result send. -/
structure ExecEnv where
  run : PendingCommand → RunOutcome
  stdoutOf : PendingCommand → String
  stderrOf : PendingCommand → String
  durationOf : PendingCommand → Rat
  now : Nat
  resultSend : PendingCommand → Nat → Bool

/-- Trace of one `executeCommand` unit: the `bash -c` invocations actually
performed, the single result record built, the transport trace of its
send, and the send outcome. -/
structure ExecTrace where
  shellRuns : List String
  result : CommandResult
  transport : List TransportEvent
  sendOk : Bool
deriving Repr

/-- `executeCommand` (lines 933-973): run the shell once, build the one
result record from the outcome, send it with retry.  The send is retried;
the execution is not inside any loop. -/
def executeCommand (cfg : Config) (env : ExecEnv) (cmd : PendingCommand) :
    ExecTrace :=
  let outcome := env.run cmd
  let result : CommandResult :=
    { commandID := cmd.id
      exitCode := exitCodeOf outcome
      stdout := env.stdoutOf cmd
      stderr := env.stderrOf cmd
      duration := env.durationOf cmd
      timestamp := env.now }
  let r := sendCommandResultWithRetry cfg (env.resultSend cmd)
  { shellRuns := [cmd.command], result := result, transport := r.1, sendOk := r.2 }

/-! ## Command polling

`checkAndExecuteCommands` (main.go lines 890-931) performs one direct HTTP
GET — building the request, issuing it, checking the status, decoding the
body — and spawns one `executeCommand` goroutine per decoded command.
Every failure path logs and returns; note that the poll is NOT routed
through the retry loop: at most one HTTP request is made (none at all when
`http.NewRequest` itself fails). -/

/-- Outcome of the single poll interaction. -/
inductive PollResult where
  | reqCreateError
  | netError
  | response (status : Nat) (decoded : Option (List PendingCommand))
deriving Repr

/-- The commands obtained from a poll outcome (lines 892-917): every
failure path yields the empty list. -/
def pollCommands : PollResult → List PendingCommand
  | .reqCreateError => []
  | .netError => []
  | .response status d =>
    if status ≠ 200 then []
    else match d with
      | none => []
      | some cmds => cmds

/-- How many HTTP requests the poll performs: none when request creation
fails, exactly one otherwise. -/
def pollAttemptsOf : PollResult → Nat
  | .reqCreateError => 0
  | _ => 1

/-- Trace of one `checkAndExecuteCommands` pass. -/
structure TickCommandTrace where
  pollAttempts : Nat
  spawned : List PendingCommand
  execTraces : List ExecTrace

/-- The `for _, cmd := range commands { wg.Add(1); go executeCommand ... }`
fan-out (lines 924-930). -/
def execAll (cfg : Config) (env : ExecEnv) : List PendingCommand → List ExecTrace
  | [] => []
  | c :: cs => executeCommand cfg env c :: execAll cfg env cs

/-- `checkAndExecuteCommands` (lines 890-931). -/
def checkAndExecuteCommands (cfg : Config) (pr : PollResult) (env : ExecEnv) :
    TickCommandTrace :=
  { pollAttempts := pollAttemptsOf pr
    spawned := pollCommands pr
    execTraces := execAll cfg env (pollCommands pr) }

/-- All shell invocations performed across a list of execution units. -/
def shellRunsOf : List ExecTrace → List String
  | [] => []
  | e :: es => e.shellRuns ++ shellRunsOf es

/-! ## Lifecycle coordinator

`main` (main.go lines 526-568).  After registration, the coordinator runs
a `select` loop over the ticker channel and the shutdown-signal channel,
with a `sync.WaitGroup` tracking every spawned unit of work:

* the initial collection goroutine is added and spawned before the loop
  (lines 544-548);
* each tick adds and spawns one goroutine running
  `collectAndSendMetrics(); checkAndExecuteCommands()` (lines 553-559);
* `checkAndExecuteCommands` adds and spawns one goroutine per pending
  command, from inside the still-running tick goroutine (lines 924-930);
* on a shutdown signal the ticker is stopped, `wg.Wait()` blocks until
  every counter increment has been matched by a `wg.Done()`, and `main`
  returns (lines 560-565).

The interleaving of these concurrent units is modelled as a labelled
transition system; `wg.Wait()` returning is the `exitProc` step, enabled
only when every spawned unit is done. -/

/-- Kinds of units of work tracked by the wait group. -/
inductive UnitKind where
  | collection
  | commandExec
deriving DecidableEq, Repr

/-- One spawned unit: its kind and whether its goroutine has finished
(body completed, `wg.Done()` executed). -/
structure UnitState where
  kind : UnitKind
  done : Bool
deriving DecidableEq, Repr

/-- State of the coordinator: the configuration snapshot, whether the
shutdown signal has been received by the select loop, whether the ticker
has been stopped, whether `main` has returned, and all units spawned so
far. -/
structure MainState where
  cfg : Config
  sigReceived : Bool
  tickerStopped : Bool
  exited : Bool
  units : List UnitState
deriving DecidableEq, Repr

/-- State on entry to the main loop: signal untouched, ticker running, the
initial collection unit already spawned (lines 544-548). -/
def initState (c : Config) : MainState :=
  { cfg := c
    sigReceived := false
    tickerStopped := false
    exited := false
    units := [⟨.collection, false⟩] }

/-- Labels of coordinator transitions. -/
inductive StepLabel where
  | tick
  | spawnCommand (i : Nat)
  | finishUnit (i : Nat)
  | signal
  | exitProc
deriving DecidableEq, Repr

/-- One interleaving step of the coordinator and its units. -/
inductive Step : MainState → StepLabel → MainState → Prop where
  | tick (s : MainState) (h1 : s.sigReceived = false) (h2 : s.exited = false) :
      Step s .tick { s with units := s.units ++ [⟨.collection, false⟩] }
  | spawnCommand (s : MainState) (i : Nat) (h2 : s.exited = false)
      (hi : i < s.units.length)
      (hk : (s.units.get ⟨i, hi⟩).kind = .collection)
      (hd : (s.units.get ⟨i, hi⟩).done = false) :
      Step s (.spawnCommand i) { s with units := s.units ++ [⟨.commandExec, false⟩] }
  | finishUnit (s : MainState) (i : Nat) (h2 : s.exited = false)
      (hi : i < s.units.length)
      (hd : (s.units.get ⟨i, hi⟩).done = false) :
      Step s (.finishUnit i)
        { s with units := s.units.set i ⟨(s.units.get ⟨i, hi⟩).kind, true⟩ }
  | signal (s : MainState) (h1 : s.sigReceived = false) (h2 : s.exited = false) :
      Step s .signal { s with sigReceived := true, tickerStopped := true }
  | exitProc (s : MainState) (h1 : s.sigReceived = true) (h2 : s.exited = false)
      (hall : ∀ u ∈ s.units, u.done = true) :
      Step s .exitProc { s with exited := true }

/-- States reachable from loop entry with configuration `c`. -/
inductive Reachable (c : Config) : MainState → Prop where
  | init : Reachable c (initState c)
  | step {s s' : MainState} {l : StepLabel} :
      Reachable c s → Step s l s' → Reachable c s'

/-! ## The whole run: registration, initial collection, ticks -/

/-- The outside world of one tick: host queries, tick time, measured
duration, metrics-send outcomes, poll outcome, command-execution world. -/
structure TickEnv where
  host : HostOracle
  now : Nat
  dur : Rat
  metricsSend : Nat → Bool
  poll : PollResult
  exec : ExecEnv

/-- Everything one tick goroutine does (lines 553-559):
`collectAndSendMetrics()` then `checkAndExecuteCommands()`. -/
structure TickTraceFull where
  collect : CollectResult
  commands : TickCommandTrace

/-- One tick body. -/
def runTick (cfg : Config) (t : TickEnv) : TickTraceFull :=
  ⟨collectAndSendMetrics cfg t.host t.now t.dur t.metricsSend,
   checkAndExecuteCommands cfg t.poll t.exec⟩

/-- Observable outcome of `main` (lines 526-568): either the
`log.Fatalf` abort when registration is exhausted, or a completed run
recording the initial collection and every tick processed before
shutdown. -/
inductive AgentRun where
  | fatalRegistration
  | completed (initial : CollectResult) (ticks : List TickTraceFull)

/-- `main` (lines 526-568) over a run that observes `ticks.length` ticker
firings before the shutdown signal: registration with retry (fatal when
exhausted), one initial collection (lines 544-548, collection only — no
command poll), then one tick body per ticker firing.  No tick-level
failure of any kind has an early-exit path. -/
def runAgent (cfg : Config) (regO : Nat → Bool) (first : TickEnv)
    (ticks : List TickEnv) : AgentRun :=
  if (registerAgentWithRetry cfg regO).2 then
    .completed
      (collectAndSendMetrics cfg first.host first.now first.dur first.metricsSend)
      (ticks.map (runTick cfg))
  else
    .fatalRegistration

/-! ## Concrete test fixtures used by witnesses -/

/-- The default configuration with hostname resolved to `host1`. -/
def cfgTest : Config :=
  { serverURL := "http://localhost:8000"
    apiKey := "agent-key-1"
    interval := 60
    hostname := "host1"
    maxTimeout := 300
    maxRetries := 3
    retryDelay := 5
    logLevel := "info"
    enableDebug := false }

/-- An environment with no overrides and hostname `host1`. -/
def envTest : Env := ⟨fun _ => "", some "host1"⟩

/-- A permanently failing send oracle. -/
def sendFailO : Nat → Bool := fun _ => false

/-- A permanently failing registration oracle. -/
def regFailO : Nat → Bool := fun _ => false

/-- A host where every query fails. -/
def oEmpty : HostOracle :=
  { cpuPercent := none, cpuCount := none, virtualMemory := none,
    swapMemory := none, partitions := none, diskUsage := fun _ => none,
    netIOCounters := none, hostUptime := none, loadAvg := none,
    processPids := none }

/-- An execution world where every command is killed (the timeout case)
and every result send succeeds. -/
def envKilled : ExecEnv :=
  { run := fun _ => .killed, stdoutOf := fun _ => "partial out",
    stderrOf := fun _ => "", durationOf := fun _ => 1, now := 0,
    resultSend := fun _ _ => true }

/-- The concrete pending command of the spec scenario. -/
def cmd7 : PendingCommand := ⟨7, "sleep 5"⟩

/-! ## Claims -/

/-- C1: for `maxRetries = N ≥ 1`, a permanently failing metrics or
command-result send performs the trace
attempt 1, sleep retryDelay, attempt 2, …, sleep retryDelay, attempt N —
exactly N attempts, sleeping the configured delay between consecutive
attempts only (never after the last) — and returns exhausted-failure
(`false`); and for every oracle, whenever a send gives up
(exhausted-failure), it has performed exactly N attempts, never fewer. -/
theorem C1_retry_boundedness (cfg : Config) (oracle : Nat → Bool)
    (h : 1 ≤ cfg.maxRetries) :
    sendMetricsWithRetry cfg (fun _ => false)
      = (List.intersperse (.sleep cfg.retryDelay)
          ((List.range' 1 cfg.maxRetries).map TransportEvent.attempt), false)
  ∧ sendCommandResultWithRetry cfg (fun _ => false)
      = (List.intersperse (.sleep cfg.retryDelay)
          ((List.range' 1 cfg.maxRetries).map TransportEvent.attempt), false)
  ∧ countAttempts (sendMetricsWithRetry cfg (fun _ => false)).1 = cfg.maxRetries
  ∧ ((sendMetricsWithRetry cfg oracle).2 = false →
      countAttempts (sendMetricsWithRetry cfg oracle).1 = cfg.maxRetries)
  ∧ ((sendCommandResultWithRetry cfg oracle).2 = false →
      countAttempts (sendCommandResultWithRetry cfg oracle).1 = cfg.maxRetries) := by
  have hk : cfg.maxRetries - 1 + 1 = cfg.maxRetries := by omega
  have hperm := retryLoop_perm cfg.maxRetries cfg.retryDelay (cfg.maxRetries - 1) 1
    (le_refl 1) (by omega)
  rw [hk] at hperm
  have hcount : ∀ o : Nat → Bool,
      (retryLoop cfg.maxRetries cfg.retryDelay o 1).2 = false →
        countAttempts (retryLoop cfg.maxRetries cfg.retryDelay o 1).1 = cfg.maxRetries := by
    intro o hf
    have := retryLoop_exhausted cfg.maxRetries cfg.retryDelay o (cfg.maxRetries - 1) 1
      (le_refl 1) (by omega) hf
    omega
  refine ⟨hperm, hperm, ?_, hcount oracle, hcount oracle⟩
  exact hcount (fun _ => false) (by rw [hperm])

/-- Witness for C1 at the default configuration (3 retries, 5 s delay):
three attempts with a sleep between consecutive ones and exhaustion. -/
theorem C1_retry_boundedness_witness :
    1 ≤ cfgTest.maxRetries
  ∧ sendMetricsWithRetry cfgTest sendFailO
      = ([.attempt 1, .sleep 5, .attempt 2, .sleep 5, .attempt 3], false) := by
  have h := (C1_retry_boundedness cfgTest sendFailO (by decide)).1
  exact ⟨by decide, h⟩

theorem shellRunsOf_execAll (cfg : Config) (env : ExecEnv)
    (cs : List PendingCommand) :
    shellRunsOf (execAll cfg env cs) = cs.map (fun c => c.command) := by
  induction cs with
  | nil => rfl
  | cons c cs ih => simp [execAll, shellRunsOf, executeCommand, ih]

/-- C3: each pending command's text is run through the shell exactly once:
one `executeCommand` unit performs exactly the single invocation
`[cmd.command]` for every execution world `env` — in particular for every
outcome of the result send (success, transient failure, exhaustion, all
covered by `env.resultSend`) — and one poll-and-execute pass runs each
fetched command's text exactly once, in order. -/
theorem C3_execute_exactly_once (cfg : Config) (env : ExecEnv)
    (pr : PollResult) (cmd : PendingCommand) :
    (executeCommand cfg env cmd).shellRuns = [cmd.command]
  ∧ shellRunsOf (checkAndExecuteCommands cfg pr env).execTraces
      = (pollCommands pr).map (fun c => c.command) := by
  exact ⟨rfl, shellRunsOf_execAll cfg env (pollCommands pr)⟩

/-- C4: a command whose execution hits the `context.WithTimeout` deadline
(its process is killed, `RunOutcome.killed`) yields exactly one result
whose command id is the pending command's id, whose exit code is non-zero,
and which carries the captured (partial) output, after a single shell
invocation. -/
theorem C4_timeout_nonzero_exit (cfg : Config) (env : ExecEnv)
    (cmd : PendingCommand) (h : env.run cmd = .killed) :
    (executeCommand cfg env cmd).result.commandID = cmd.id
  ∧ (executeCommand cfg env cmd).result.exitCode ≠ 0
  ∧ (executeCommand cfg env cmd).result.stdout = env.stdoutOf cmd
  ∧ (executeCommand cfg env cmd).result.stderr = env.stderrOf cmd
  ∧ (executeCommand cfg env cmd).shellRuns = [cmd.command] := by
  refine ⟨rfl, ?_, rfl, rfl, rfl⟩
  simp [executeCommand, h, exitCodeOf]

/-- Witness for C4: the spec scenario `{id: 7, command: "sleep 5"}` timed
out yields `command_id = 7` and a non-zero exit code. -/
theorem C4_timeout_nonzero_exit_witness :
    envKilled.run cmd7 = .killed
  ∧ (executeCommand cfgTest envKilled cmd7).result.commandID = 7
  ∧ (executeCommand cfgTest envKilled cmd7).result.exitCode ≠ 0 := by
  have h := C4_timeout_nonzero_exit cfgTest envKilled cmd7 rfl
  exact ⟨rfl, h.1, h.2.1⟩

/-- C6 counterexample: an abnormally terminated (signal-killed) process
takes the `*exec.ExitError` branch of lines 950-955, and
`ExitCode()` for a signal-killed process is `-1`, so the recorded exit
code is `-1`, not `1` as the claim states. -/
theorem C6_exit_code_counterexample :
    envKilled.run cmd7 = .killed
  ∧ (executeCommand cfgTest envKilled cmd7).result.exitCode = -1
  ∧ (executeCommand cfgTest envKilled cmd7).result.exitCode ≠ 1 := by
  refine ⟨rfl, rfl, by decide⟩

/-- C6 (amended): the recorded exit code is `0` when the process exits
successfully and `1` when it could not be started; when the process is
abnormally terminated (killed by a signal — the timeout path included)
the recorded exit code is the `ExitCode()` of the `*exec.ExitError`,
namely `-1` (non-zero, but not `1`); a process that exits by itself with
code `c` records `c`. -/
theorem C6_exit_code_amended (cfg : Config) (env : ExecEnv)
    (cmd : PendingCommand) :
    (env.run cmd = .exited 0 → (executeCommand cfg env cmd).result.exitCode = 0)
  ∧ (env.run cmd = .startFailed → (executeCommand cfg env cmd).result.exitCode = 1)
  ∧ (env.run cmd = .killed → (executeCommand cfg env cmd).result.exitCode = -1)
  ∧ (∀ c : Int, env.run cmd = .exited c →
      (executeCommand cfg env cmd).result.exitCode = c) := by
  refine ⟨?_, ?_, ?_, ?_⟩
  · intro h; simp [executeCommand, h, exitCodeOf]
  · intro h; simp [executeCommand, h, exitCodeOf]
  · intro h; simp [executeCommand, h, exitCodeOf]
  · intro c h; simp [executeCommand, h, exitCodeOf]

/-- Witness for the amended C6 at a killed command. -/
theorem C6_exit_code_amended_witness :
    envKilled.run cmd7 = .killed
  ∧ (executeCommand cfgTest envKilled cmd7).result.exitCode = -1 :=
  ⟨rfl, (C6_exit_code_amended cfgTest envKilled cmd7).2.2.1 rfl⟩

/-- C8 counterexample: the command poll is a single direct HTTP request,
not a call through the retry loop: on a transport failure with the
default configuration (`maxRetries = 3`) exactly one poll attempt is
made, not the `maxRetries` attempts the resilient-transport policy
performs on a persistently failing call. -/
theorem C8_poll_no_retry_counterexample :
    cfgTest.maxRetries = 3
  ∧ (checkAndExecuteCommands cfgTest .netError envKilled).pollAttempts = 1
  ∧ (checkAndExecuteCommands cfgTest .netError envKilled).pollAttempts
      ≠ cfgTest.maxRetries := by
  refine ⟨rfl, rfl, by decide⟩

/-- C8 (amended): every failure mode of the poll — request creation
failure, network error, non-2xx status, undecodable body — yields the
same outcome as an empty pending-command list (nothing spawned, no
execution, no result produced; `checkAndExecuteCommands` merely logs and
returns, it has no escalation path) — but the poll is a single direct
HTTP request (at most one attempt; none when request creation fails),
not a call through the bounded retry policy. -/
theorem C8_poll_failure_amended (cfg : Config) (env : ExecEnv)
    (status : Nat) (cmds : Option (List PendingCommand)) :
    (checkAndExecuteCommands cfg .reqCreateError env).spawned = []
  ∧ (checkAndExecuteCommands cfg .reqCreateError env).execTraces = []
  ∧ checkAndExecuteCommands cfg .netError env
      = checkAndExecuteCommands cfg (.response 200 (some [])) env
  ∧ (status ≠ 200 →
      checkAndExecuteCommands cfg (.response status cmds) env
        = checkAndExecuteCommands cfg (.response 200 (some [])) env)
  ∧ checkAndExecuteCommands cfg (.response status none) env
      = checkAndExecuteCommands cfg (.response 200 (some [])) env
  ∧ (∀ pr : PollResult, (checkAndExecuteCommands cfg pr env).pollAttempts ≤ 1) := by
  refine ⟨rfl, rfl, rfl, ?_, ?_, ?_⟩
  · intro h
    simp [checkAndExecuteCommands, pollCommands, pollAttemptsOf, h, execAll]
  · by_cases h : status = 200
    · simp [checkAndExecuteCommands, pollCommands, pollAttemptsOf, h, execAll]
    · simp [checkAndExecuteCommands, pollCommands, pollAttemptsOf, h, execAll]
  · intro pr
    cases pr <;> simp [checkAndExecuteCommands, pollAttemptsOf]

/-- Witness for the amended C8: a 500 response spawns nothing. -/
theorem C8_poll_failure_amended_witness :
    (500 : Nat) ≠ 200
  ∧ checkAndExecuteCommands cfgTest (.response 500 (some [cmd7])) envKilled
      = checkAndExecuteCommands cfgTest (.response 200 (some [])) envKilled := by
  have h := C8_poll_failure_amended cfgTest envKilled 500 (some [cmd7])
  exact ⟨by decide, h.2.2.2.1 (by decide)⟩

/-- C5: for every subset of host metric sources that succeed (every
`HostOracle`), the batch restricted to each source's (category, name)
keys is exactly that source's expected samples — present with the
specified category, name, unit and value when the source succeeded,
absent when it failed, with no other source contributing to those keys —
and the batch is submitted (at least one HTTP attempt is made by
`sendMetricsWithRetry`) whatever subset succeeded, even the empty one. -/
theorem C5_batch_completeness (cfg : Config) (o : HostOracle) (now : Nat)
    (dur : Rat) (s : Nat → Bool) (h : 1 ≤ cfg.maxRetries) :
    (collectAndSendMetrics cfg o now dur s).payload.metrics = collectMetrics o now dur
  ∧ keyFilter cpuK (collectMetrics o now dur) = cpuBlock o now
  ∧ keyFilter cpuCountK (collectMetrics o now dur) = cpuCountBlock o now
  ∧ keyFilter memK (collectMetrics o now dur) = memBlock o now
  ∧ keyFilter swapK (collectMetrics o now dur) = swapBlock o now
  ∧ keyFilter diskK (collectMetrics o now dur) = diskBlock o now
  ∧ keyFilter netK (collectMetrics o now dur) = netBlock o now
  ∧ keyFilter hostK (collectMetrics o now dur) = hostBlock o now
  ∧ keyFilter loadK (collectMetrics o now dur) = loadBlock o now
  ∧ keyFilter procK (collectMetrics o now dur) = procBlock o now
  ∧ 1 ≤ countAttempts (collectAndSendMetrics cfg o now dur s).transport := by
  refine ⟨rfl, ?_, ?_, ?_, ?_, ?_, ?_, ?_, ?_, ?_, ?_⟩
  · simp only [collectMetrics, hostMetrics, keyFilter_append]
    rw [keyFilter_self cpuK _ (cpuBlock_keys o now),
        keyFilter_nil cpuK cpuCountK _ (cpuCountBlock_keys o now) (by decide),
        keyFilter_nil cpuK memK _ (memBlock_keys o now) (by decide),
        keyFilter_nil cpuK swapK _ (swapBlock_keys o now) (by decide),
        keyFilter_nil cpuK diskK _ (diskBlock_keys o now) (by decide),
        keyFilter_nil cpuK netK _ (netBlock_keys o now) (by decide),
        keyFilter_nil cpuK hostK _ (hostBlock_keys o now) (by decide),
        keyFilter_nil cpuK loadK _ (loadBlock_keys o now) (by decide),
        keyFilter_nil cpuK procK _ (procBlock_keys o now) (by decide),
        keyFilter_nil cpuK agentK _ (durationMetric_keys now dur) (by decide)]
    simp
  · simp only [collectMetrics, hostMetrics, keyFilter_append]
    rw [keyFilter_nil cpuCountK cpuK _ (cpuBlock_keys o now) (by decide),
        keyFilter_self cpuCountK _ (cpuCountBlock_keys o now),
        keyFilter_nil cpuCountK memK _ (memBlock_keys o now) (by decide),
        keyFilter_nil cpuCountK swapK _ (swapBlock_keys o now) (by decide),
        keyFilter_nil cpuCountK diskK _ (diskBlock_keys o now) (by decide),
        keyFilter_nil cpuCountK netK _ (netBlock_keys o now) (by decide),
        keyFilter_nil cpuCountK hostK _ (hostBlock_keys o now) (by decide),
        keyFilter_nil cpuCountK loadK _ (loadBlock_keys o now) (by decide),
        keyFilter_nil cpuCountK procK _ (procBlock_keys o now) (by decide),
        keyFilter_nil cpuCountK agentK _ (durationMetric_keys now dur) (by decide)]
    simp
  · simp only [collectMetrics, hostMetrics, keyFilter_append]
    rw [keyFilter_nil memK cpuK _ (cpuBlock_keys o now) (by decide),
        keyFilter_nil memK cpuCountK _ (cpuCountBlock_keys o now) (by decide),
        keyFilter_self memK _ (memBlock_keys o now),
        keyFilter_nil memK swapK _ (swapBlock_keys o now) (by decide),
        keyFilter_nil memK diskK _ (diskBlock_keys o now) (by decide),
        keyFilter_nil memK netK _ (netBlock_keys o now) (by decide),
        keyFilter_nil memK hostK _ (hostBlock_keys o now) (by decide),
        keyFilter_nil memK loadK _ (loadBlock_keys o now) (by decide),
        keyFilter_nil memK procK _ (procBlock_keys o now) (by decide),
        keyFilter_nil memK agentK _ (durationMetric_keys now dur) (by decide)]
    simp
  · simp only [collectMetrics, hostMetrics, keyFilter_append]
    rw [keyFilter_nil swapK cpuK _ (cpuBlock_keys o now) (by decide),
        keyFilter_nil swapK cpuCountK _ (cpuCountBlock_keys o now) (by decide),
        keyFilter_nil swapK memK _ (memBlock_keys o now) (by decide),
        keyFilter_self swapK _ (swapBlock_keys o now),
        keyFilter_nil swapK diskK _ (diskBlock_keys o now) (by decide),
        keyFilter_nil swapK netK _ (netBlock_keys o now) (by decide),
        keyFilter_nil swapK hostK _ (hostBlock_keys o now) (by decide),
        keyFilter_nil swapK loadK _ (loadBlock_keys o now) (by decide),
        keyFilter_nil swapK procK _ (procBlock_keys o now) (by decide),
        keyFilter_nil swapK agentK _ (durationMetric_keys now dur) (by decide)]
    simp
  · simp only [collectMetrics, hostMetrics, keyFilter_append]
    rw [keyFilter_nil diskK cpuK _ (cpuBlock_keys o now) (by decide),
        keyFilter_nil diskK cpuCountK _ (cpuCountBlock_keys o now) (by decide),
        keyFilter_nil diskK memK _ (memBlock_keys o now) (by decide),
        keyFilter_nil diskK swapK _ (swapBlock_keys o now) (by decide),
        keyFilter_self diskK _ (diskBlock_keys o now),
        keyFilter_nil diskK netK _ (netBlock_keys o now) (by decide),
        keyFilter_nil diskK hostK _ (hostBlock_keys o now) (by decide),
        keyFilter_nil diskK loadK _ (loadBlock_keys o now) (by decide),
        keyFilter_nil diskK procK _ (procBlock_keys o now) (by decide),
        keyFilter_nil diskK agentK _ (durationMetric_keys now dur) (by decide)]
    simp
  · simp only [collectMetrics, hostMetrics, keyFilter_append]
    rw [keyFilter_nil netK cpuK _ (cpuBlock_keys o now) (by decide),
        keyFilter_nil netK cpuCountK _ (cpuCountBlock_keys o now) (by decide),
        keyFilter_nil netK memK _ (memBlock_keys o now) (by decide),
        keyFilter_nil netK swapK _ (swapBlock_keys o now) (by decide),
        keyFilter_nil netK diskK _ (diskBlock_keys o now) (by decide),
        keyFilter_self netK _ (netBlock_keys o now),
        keyFilter_nil netK hostK _ (hostBlock_keys o now) (by decide),
        keyFilter_nil netK loadK _ (loadBlock_keys o now) (by decide),
        keyFilter_nil netK procK _ (procBlock_keys o now) (by decide),
        keyFilter_nil netK agentK _ (durationMetric_keys now dur) (by decide)]
    simp
  · simp only [collectMetrics, hostMetrics, keyFilter_append]
    rw [keyFilter_nil hostK cpuK _ (cpuBlock_keys o now) (by decide),
        keyFilter_nil hostK cpuCountK _ (cpuCountBlock_keys o now) (by decide),
        keyFilter_nil hostK memK _ (memBlock_keys o now) (by decide),
        keyFilter_nil hostK swapK _ (swapBlock_keys o now) (by decide),
        keyFilter_nil hostK diskK _ (diskBlock_keys o now) (by decide),
        keyFilter_nil hostK netK _ (netBlock_keys o now) (by decide),
        keyFilter_self hostK _ (hostBlock_keys o now),
        keyFilter_nil hostK loadK _ (loadBlock_keys o now) (by decide),
        keyFilter_nil hostK procK _ (procBlock_keys o now) (by decide),
        keyFilter_nil hostK agentK _ (durationMetric_keys now dur) (by decide)]
    simp
  · simp only [collectMetrics, hostMetrics, keyFilter_append]
    rw [keyFilter_nil loadK cpuK _ (cpuBlock_keys o now) (by decide),
        keyFilter_nil loadK cpuCountK _ (cpuCountBlock_keys o now) (by decide),
        keyFilter_nil loadK memK _ (memBlock_keys o now) (by decide),
        keyFilter_nil loadK swapK _ (swapBlock_keys o now) (by decide),
        keyFilter_nil loadK diskK _ (diskBlock_keys o now) (by decide),
        keyFilter_nil loadK netK _ (netBlock_keys o now) (by decide),
        keyFilter_nil loadK hostK _ (hostBlock_keys o now) (by decide),
        keyFilter_self loadK _ (loadBlock_keys o now),
        keyFilter_nil loadK procK _ (procBlock_keys o now) (by decide),
        keyFilter_nil loadK agentK _ (durationMetric_keys now dur) (by decide)]
    simp
  · simp only [collectMetrics, hostMetrics, keyFilter_append]
    rw [keyFilter_nil procK cpuK _ (cpuBlock_keys o now) (by decide),
        keyFilter_nil procK cpuCountK _ (cpuCountBlock_keys o now) (by decide),
        keyFilter_nil procK memK _ (memBlock_keys o now) (by decide),
        keyFilter_nil procK swapK _ (swapBlock_keys o now) (by decide),
        keyFilter_nil procK diskK _ (diskBlock_keys o now) (by decide),
        keyFilter_nil procK netK _ (netBlock_keys o now) (by decide),
        keyFilter_nil procK hostK _ (hostBlock_keys o now) (by decide),
        keyFilter_nil procK loadK _ (loadBlock_keys o now) (by decide),
        keyFilter_self procK _ (procBlock_keys o now),
        keyFilter_nil procK agentK _ (durationMetric_keys now dur) (by decide)]
    simp
  · exact retryLoop_one_attempt cfg.maxRetries cfg.retryDelay s h

/-- Witness for C5 at a host where every query fails: the restriction to
memory keys is empty and the (empty-but-for-duration) batch is still
submitted. -/
theorem C5_batch_completeness_witness :
    1 ≤ cfgTest.maxRetries
  ∧ keyFilter memK (collectMetrics oEmpty 0 0) = memBlock oEmpty 0
  ∧ 1 ≤ countAttempts (collectAndSendMetrics cfgTest oEmpty 0 0 sendFailO).transport := by
  have h := C5_batch_completeness cfgTest oEmpty 0 0 sendFailO (by decide)
  exact ⟨by decide, h.2.2.2.1, h.2.2.2.2.2.2.2.2.2.2⟩

/-- C10: every collection pass — even one where every host query fails —
produces a non-empty batch whose final element is the single
agent-category collection-duration sample; restricted to the
(agent, collection_duration) key, the batch holds exactly that one
sample. -/
theorem C10_duration_sample_last (o : HostOracle) (now : Nat) (dur : Rat) :
    collectMetrics o now dur ≠ []
  ∧ (collectMetrics o now dur).getLast? = some (durationMetric now dur)
  ∧ keyFilter agentK (collectMetrics o now dur) = [durationMetric now dur] := by
  refine ⟨?_, ?_, ?_⟩
  · simp [collectMetrics]
  · rw [collectMetrics, List.getLast?_concat]
  · simp only [collectMetrics, hostMetrics, keyFilter_append]
    rw [keyFilter_nil agentK cpuK _ (cpuBlock_keys o now) (by decide),
        keyFilter_nil agentK cpuCountK _ (cpuCountBlock_keys o now) (by decide),
        keyFilter_nil agentK memK _ (memBlock_keys o now) (by decide),
        keyFilter_nil agentK swapK _ (swapBlock_keys o now) (by decide),
        keyFilter_nil agentK diskK _ (diskBlock_keys o now) (by decide),
        keyFilter_nil agentK netK _ (netBlock_keys o now) (by decide),
        keyFilter_nil agentK hostK _ (hostBlock_keys o now) (by decide),
        keyFilter_nil agentK loadK _ (loadBlock_keys o now) (by decide),
        keyFilter_nil agentK procK _ (procBlock_keys o now) (by decide),
        keyFilter_self agentK _ (durationMetric_keys now dur)]
    simp

theorem reachable_invariant (c : Config) (s : MainState) (h : Reachable c s) :
    (s.exited = true → s.sigReceived = true ∧ ∀ u ∈ s.units, u.done = true)
  ∧ (s.sigReceived = true → s.tickerStopped = true) := by
  induction h with
  | init => simp [initState]
  | step hr hstep ih =>
    cases hstep with
    | tick h1 h2 =>
      exact ⟨fun he => absurd he (by simp [h2]), fun hs => ih.2 hs⟩
    | spawnCommand i h2 hi hk hd =>
      exact ⟨fun he => absurd he (by simp [h2]), fun hs => ih.2 hs⟩
    | finishUnit i h2 hi hd =>
      exact ⟨fun he => absurd he (by simp [h2]), fun hs => ih.2 hs⟩
    | signal h1 h2 =>
      exact ⟨fun he => absurd he (by simp [h2]), fun _ => rfl⟩
    | exitProc h1 h2 hall =>
      exact ⟨fun _ => ⟨h1, hall⟩, fun _ => ih.2 h1⟩

/-- C2: in every reachable coordinator state, (i) if the process has
exited then the shutdown signal was received and every unit spawned so
far — the initial and per-tick collection units and every
command-execution unit — has completed; (ii) once the signal is received
the ticker is stopped and no further tick step is possible; and (iii) a
unit's completion includes its send finishing: every command-execution
unit body ends with its result either sent successfully or its send
retries exhausted (exactly `maxRetries` attempts), and likewise every
collection unit body for its metrics batch. -/
theorem C2_shutdown_drains (c : Config) (s : MainState) (h : Reachable c s) :
    (s.exited = true → s.sigReceived = true ∧ ∀ u ∈ s.units, u.done = true)
  ∧ (s.sigReceived = true → s.tickerStopped = true)
  ∧ (s.sigReceived = true → ∀ s', ¬ Step s .tick s')
  ∧ (∀ (cfg : Config) (env : ExecEnv) (cmd : PendingCommand),
      (executeCommand cfg env cmd).sendOk = true
        ∨ countAttempts (executeCommand cfg env cmd).transport = cfg.maxRetries)
  ∧ (∀ (cfg : Config) (o : HostOracle) (now : Nat) (dur : Rat) (sv : Nat → Bool),
      (collectAndSendMetrics cfg o now dur sv).sendOk = true
        ∨ countAttempts (collectAndSendMetrics cfg o now dur sv).transport
            = cfg.maxRetries) := by
  have hsend : ∀ (cfg : Config) (ov : Nat → Bool),
      (retryLoop cfg.maxRetries cfg.retryDelay ov 1).2 = true
        ∨ countAttempts (retryLoop cfg.maxRetries cfg.retryDelay ov 1).1
            = cfg.maxRetries := by
    intro cfg ov
    rcases hb : (retryLoop cfg.maxRetries cfg.retryDelay ov 1).2 with _ | _
    · right
      by_cases hm : cfg.maxRetries = 0
      · rw [retryLoop] at hb
        simp [hm] at hb
      · have := retryLoop_exhausted cfg.maxRetries cfg.retryDelay ov
          (cfg.maxRetries - 1) 1 (le_refl 1) (by omega) hb
        omega
    · left; rfl
  refine ⟨(reachable_invariant c s h).1, (reachable_invariant c s h).2, ?_, ?_, ?_⟩
  · intro hs s' hstep
    cases hstep with
    | tick h1 h2 =>
      rw [hs] at h1
      exact absurd h1 (by simp)
  · intro cfg env cmd
    exact hsend cfg (env.resultSend cmd)
  · intro cfg o now dur sv
    exact hsend cfg sv

/-- The drained final state used by the lifecycle witnesses: signal
received, ticker stopped, the initial collection unit finished, process
exited. -/
def sFinal : MainState :=
  { cfg := cfgTest
    sigReceived := true
    tickerStopped := true
    exited := true
    units := [⟨.collection, true⟩] }

theorem reach_sFinal : Reachable cfgTest sFinal := by
  have h0 : Reachable cfgTest (initState cfgTest) := .init
  have h1 := Reachable.step h0 (Step.signal (initState cfgTest) rfl rfl)
  have h2 := Reachable.step h1
    (Step.finishUnit _ 0 rfl (by decide) (by decide))
  have h3 := Reachable.step h2 (Step.exitProc _ rfl rfl (by decide))
  exact h3

/-- Witness for C2 at a concrete drained run: in the exited state every
spawned unit is done and the ticker is stopped. -/
theorem C2_shutdown_drains_witness :
    (sFinal.sigReceived = true ∧ ∀ u ∈ sFinal.units, u.done = true)
  ∧ sFinal.tickerStopped = true := by
  have h := C2_shutdown_drains cfgTest sFinal reach_sFinal
  exact ⟨h.1 rfl, h.2.1 rfl⟩

/-- C7: in the post-configuration core, registration exhausted-failure is
the one fatal condition: the run aborts if and only if every registration
attempt within the bounded retry budget fails, it aborts before any tick
(no initial collection, no tick trace), and when registration succeeds
the run completes the initial collection and every observed tick —
whatever failures (metrics-send exhaustion, command-result-send
exhaustion, poll failure, per-metric query failure, command execution
failure) those ticks contain, none has an early-exit path. -/
theorem C7_registration_only_fatal (cfg : Config) (regO : Nat → Bool)
    (first : TickEnv) (ticks : List TickEnv) (h : 1 ≤ cfg.maxRetries) :
    (runAgent cfg regO first ticks = .fatalRegistration
      ↔ ∀ j, 1 ≤ j → j ≤ cfg.maxRetries → regO j = false)
  ∧ ((registerAgentWithRetry cfg regO).2 = true →
      runAgent cfg regO first ticks
        = .completed
            (collectAndSendMetrics cfg first.host first.now first.dur first.metricsSend)
            (ticks.map (runTick cfg)))
  ∧ (ticks.map (runTick cfg)).length = ticks.length := by
  have hiff := retryLoop_false_iff cfg.maxRetries cfg.retryDelay regO
    (cfg.maxRetries - 1) 1 (le_refl 1) (by omega)
  refine ⟨?_, ?_, by simp⟩
  · rcases hb : (registerAgentWithRetry cfg regO).2 with _ | _
    · have hrun : runAgent cfg regO first ticks = .fatalRegistration := by
        rw [runAgent, hb]
        simp
      rw [hrun]
      constructor
      · intro _
        exact hiff.mp hb
      · intro _
        rfl
    · have hrun : runAgent cfg regO first ticks
          = .completed
              (collectAndSendMetrics cfg first.host first.now first.dur first.metricsSend)
              (ticks.map (runTick cfg)) := by
        rw [runAgent, hb]
        simp
      rw [hrun]
      constructor
      · intro hcon
        exact absurd hcon (by simp)
      · intro hall
        have hf : (registerAgentWithRetry cfg regO).2 = false :=
          hiff.mpr (fun j h1 h2 => hall j h1 h2)
        rw [hb] at hf
        exact absurd hf (by simp)
  · intro hb
    rw [runAgent, hb]
    simp

/-- Witness for C7 at the default configuration: a permanently failing
registration aborts the run. -/
theorem C7_registration_only_fatal_witness :
    runAgent cfgTest regFailO
      ⟨oEmpty, 0, 0, sendFailO, .netError, envKilled⟩ [] = .fatalRegistration := by
  have h := C7_registration_only_fatal cfgTest regFailO
    ⟨oEmpty, 0, 0, sendFailO, .netError, envKilled⟩ [] (by decide)
  exact h.1.mpr (fun j _ _ => rfl)

/-- C9: the configuration record built by `loadConfig` at startup is
never modified afterwards: every state reachable from loop entry — under
every interleaving of ticks, command spawns, unit completions, signal
and exit — carries the identical configuration value, field for field.
(All operation bodies are pure functions of the configuration in this
embedding, mirroring that no statement outside `loadConfig` assigns to
`config` or any of its fields in the source.) -/
theorem C9_config_immutable (e : Env) (c : Config)
    (hc : loadConfig e = some c) (s : MainState) (h : Reachable c s) :
    s.cfg = c := by
  clear hc
  induction h with
  | init => rfl
  | step hr hstep ih => cases hstep <;> exact ih

/-- Witness for C9: the default environment yields `cfgTest`, and the
drained final state of a concrete run still carries `cfgTest`. -/
theorem C9_config_immutable_witness :
    loadConfig envTest = some cfgTest ∧ sFinal.cfg = cfgTest :=
  ⟨by decide, C9_config_immutable envTest cfgTest (by decide) sFinal reach_sFinal⟩

/-- Witness for C10 at a host where every query fails: the batch is still
non-empty and ends with the one collection-duration sample. -/
theorem C10_duration_sample_last_witness :
    (collectMetrics oEmpty 0 0).getLast? = some (durationMetric 0 0)
  ∧ keyFilter agentK (collectMetrics oEmpty 0 0) = [durationMetric 0 0] := by
  have h := C10_duration_sample_last oEmpty 0 0
  exact ⟨h.2.1, h.2.2⟩
